import Mathlib

/-!
Verification of the vectorflow prompt-to-part pipeline.

The repository contains three near-identical scripts:
  * `vectorflow.py` and `a.py` — one variant (called V below): word-boundary
    keyword regexes, identical hole placement in `generate_2d_preview` and
    `build_scad`, `max_force = yield_strength * net_area`, and a `build_scad`
    that raises `ValueError` for any part type outside
    arm/trapezoid/rectangle/circle.
  * `b.py` — the drifted variant (called B below): plain substring keyword
    matching, a dedicated `l_bracket` branch in `build_scad`, no hole
    generation at all in `build_scad`, different preview hole coordinates,
    and `max_force = (effective_width * thickness) * (yield_strength / 1000)`.

Strings are modelled as `List Char` (the scripts lower-case the prompt and
work over ASCII).  Python's floats are modelled as exact rationals; the
float constant `math.pi` is a parameter `pi : ℚ` of every definition that
uses it (`piApprox` is a concrete stand-in used in closed statements).
A Python `KeyError` / `TypeError` / `ValueError` escaping a function is
modelled with `Option`/`Except`.
-/

/-- Characters matched by Python's `\s` (ASCII range, as in the prompts). -/
def isPySpace (c : Char) : Bool :=
  c == ' ' || c == '\t' || c == '\n' || c == '\r' || c == '\x0b' || c == '\x0c'

/-- Characters matched by Python's `\w` (ASCII range). -/
def isWordChar (c : Char) : Bool :=
  c.isAlpha || c.isDigit || c == '_'

/-- `startsWith w s` is true when `w` is a prefix of `s` (literal match). -/
def startsWith : List Char → List Char → Bool
  | [], _ => true
  | _ :: _, [] => false
  | c :: cs, d :: ds => c == d && startsWith cs ds

/-- Numeric value of a run of decimal digit characters, as `int()` computes it. -/
def natOfDigits (ds : List Char) : Nat :=
  ds.foldl (fun a c => a * 10 + (c.toNat - 48)) 0

/-- Greedy `\s*`: drop leading whitespace. -/
def skipSpaces (l : List Char) : List Char := l.dropWhile isPySpace

/-- Lower-casing of the prompt, `prompt.lower()`. -/
def toLowerL (l : List Char) : List Char := l.map Char.toLower

/-- Plain substring search, Python's `kw in p`. -/
def containsSub (w : List Char) : List Char → Bool
  | [] => startsWith w []
  | c :: cs => startsWith w (c :: cs) || containsSub w cs

/-- Right word boundary after a literal `w` matched at the head of `s`:
true when the text following `w` is empty or starts with a non-word char. -/
def wordAfterOk (w s : List Char) : Bool :=
  match s.drop w.length with
  | [] => true
  | c :: _ => !isWordChar c

/-- Literal `w` matches at the head of `s` with a right word boundary. -/
def atWordMatch (w s : List Char) : Bool :=
  startsWith w s && wordAfterOk w s

/-- Scan for `\bw\b` (both boundaries); `prev` records whether the previous
character was a word character. -/
def hasWordAux (w : List Char) : Bool → List Char → Bool
  | _, [] => false
  | prev, c :: cs => (!prev && atWordMatch w (c :: cs)) || hasWordAux w (isWordChar c) cs

/-- Python `re.search(r'\bw\b', s)` succeeds (for `w` beginning and ending
in word characters). -/
def hasWord (w s : List Char) : Bool := hasWordAux w false s

/-- Scan for `\bw` (left boundary only, as in `\brectangl`). -/
def hasWordStartAux (w : List Char) : Bool → List Char → Bool
  | _, [] => false
  | prev, c :: cs => (!prev && startsWith w (c :: cs)) || hasWordStartAux w (isWordChar c) cs

/-- Python `re.search(r'\bw', s)` succeeds. -/
def hasWordStart (w s : List Char) : Bool := hasWordStartAux w false s

/-- Scan for `w\b` (right boundary only, as in `bar\b`). -/
def hasWordEnd (w : List Char) : List Char → Bool
  | [] => false
  | c :: cs => atWordMatch w (c :: cs) || hasWordEnd w cs

/- Keyword literals appearing in the scripts' regexes. -/

def kwArm : List Char := String.toList (r"arm")
def kwLbr1 : List Char := String.toList (r"l-bracket")
def kwLbr2 : List Char := String.toList (r"lbracket")
def kwLbr3 : List Char := String.toList (r"l bracket")
def kwPlate : List Char := String.toList (r"plate")
def kwRectangl : List Char := String.toList (r"rectangl")
def kwRectangle : List Char := String.toList (r"rectangle")
def kwBar : List Char := String.toList (r"bar")
def kwTrapezoid : List Char := String.toList (r"trapezoid")
def kwBracket : List Char := String.toList (r"bracket")
def kwSteel : List Char := String.toList (r"steel")
def kwAluminium : List Char := String.toList (r"aluminium")
def kwAluminum : List Char := String.toList (r"aluminum")
def kwWidth : List Char := String.toList (r"width")
def kwOf : List Char := String.toList (r"of")
def kwThickness : List Char := String.toList (r"thickness")
def kwDiameter : List Char := String.toList (r"diameter")
def kwDia : List Char := String.toList (r"dia")
def kwHole : List Char := String.toList (r"hole")
def kwBolt : List Char := String.toList (r"bolt")
def kwLong : List Char := String.toList (r"long")
def kwLength : List Char := String.toList (r"length")
def kwSupports : List Char := String.toList (r"supports")
def kwUpTo : List Char := String.toList (r"up to")
def kwMm : List Char := String.toList (r"mm")

/-- Leftmost-match scan: try the single-position matcher `f` at every suffix,
left to right, exactly as `re.search` tries every start position. -/
def scanFirst (f : List Char → Option Nat) : List Char → Option Nat
  | [] => none
  | c :: cs =>
    match f (c :: cs) with
    | some n => some n
    | none => scanFirst f cs

/-- `(\d+)\s*mm` matching at the current position; returns the digit group. -/
def matchNumMm (l : List Char) : Option Nat :=
  let ds := l.takeWhile Char.isDigit
  if ds.isEmpty then none
  else if startsWith kwMm (skipSpaces (l.dropWhile Char.isDigit)) then
    some (natOfDigits ds)
  else none

/-- `re.search(r'(\d+)\s*mm', p)` — first number carrying an `mm` unit. -/
def searchNumMm : List Char → Option Nat := scanFirst matchNumMm

/-- `(\d+)\s*(?:long|length|l\b)` at the current position. -/
def matchNumLong (l : List Char) : Option Nat :=
  let ds := l.takeWhile Char.isDigit
  if ds.isEmpty then none
  else
    let r := skipSpaces (l.dropWhile Char.isDigit)
    if startsWith kwLong r || startsWith kwLength r then some (natOfDigits ds)
    else
      match r with
      | c :: rest =>
        if c == 'l' && (match rest with | [] => true | d :: _ => !isWordChar d) then
          some (natOfDigits ds)
        else none
      | [] => none

/-- `re.search(r'(\d+)\s*(?:long|length|l\b)', p)`. -/
def searchNumLong : List Char → Option Nat := scanFirst matchNumLong

/-- `\s*[:=]?\s*(\d+)` at the current position: optional spaces, an optional
single `:` or `=`, more optional spaces, then a digit group.  Returns the
group and the text after the digits. -/
def matchColonNum (l : List Char) : Option (Nat × List Char) :=
  let r1 := skipSpaces l
  let r2 :=
    match r1 with
    | c :: cs => if c == ':' || c == '=' then skipSpaces cs else r1
    | [] => r1
  let ds := r2.takeWhile Char.isDigit
  if ds.isEmpty then none else some (natOfDigits ds, r2.dropWhile Char.isDigit)

/-- Tail of V's width pattern after the literal `width`:
`(?:\s*[:=]?\s*|of\s*)(\d+)\s*mm`.  The two alternatives are disjoint on the
first character, so trying the `[:=]` form first matches Python's order. -/
def afterWidthMm (t : List Char) : Option Nat :=
  match matchColonNum t with
  | some (n, rest) => if startsWith kwMm (skipSpaces rest) then some n else none
  | none =>
    if startsWith kwOf t then matchNumMm (skipSpaces (t.drop 2)) else none

/-- `width(?:\s*[:=]?\s*|of\s*)(\d+)\s*mm` at the current position (V). -/
def matchWidthV (l : List Char) : Option Nat :=
  if startsWith kwWidth l then afterWidthMm (l.drop 5) else none

/-- `re.search` of V's width pattern. -/
def searchWidthV : List Char → Option Nat := scanFirst matchWidthV

/-- Tail of B's width pattern after the literal `width`:
`(?:\s*[:=]?\s*|of\s*)(\d+)` (no unit). -/
def afterWidthB (t : List Char) : Option Nat :=
  match matchColonNum t with
  | some (n, _) => some n
  | none =>
    if startsWith kwOf t then
      let r := skipSpaces (t.drop 2)
      let ds := r.takeWhile Char.isDigit
      if ds.isEmpty then none else some (natOfDigits ds)
    else none

/-- `width(?:\s*[:=]?\s*|of\s*)(\d+)` at the current position (B). -/
def matchWidthB (l : List Char) : Option Nat :=
  if startsWith kwWidth l then afterWidthB (l.drop 5) else none

/-- `re.search` of B's width pattern. -/
def searchWidthB : List Char → Option Nat := scanFirst matchWidthB

/-- `thickness\s*[:=]?\s*(\d+)\s*mm` at the current position (V). -/
def matchThicknessV (l : List Char) : Option Nat :=
  if startsWith kwThickness l then
    match matchColonNum (l.drop 9) with
    | some (n, rest) => if startsWith kwMm (skipSpaces rest) then some n else none
    | none => none
  else none

/-- `re.search` of V's thickness pattern. -/
def searchThicknessV : List Char → Option Nat := scanFirst matchThicknessV

/-- `thickness\s*[:=]?\s*(\d+)` at the current position (B). -/
def matchThicknessB (l : List Char) : Option Nat :=
  if startsWith kwThickness l then
    match matchColonNum (l.drop 9) with
    | some (n, _) => some n
    | none => none
  else none

/-- `re.search` of B's thickness pattern. -/
def searchThicknessB : List Char → Option Nat := scanFirst matchThicknessB

/-- `diameter\s*(\d+)` at the current position (B only). -/
def matchDiameterB (l : List Char) : Option Nat :=
  if startsWith kwDiameter l then
    let r := skipSpaces (l.drop 8)
    let ds := r.takeWhile Char.isDigit
    if ds.isEmpty then none else some (natOfDigits ds)
  else none

/-- `re.search(r'diameter\s*(\d+)', p)` (B). -/
def searchDiameterB : List Char → Option Nat := scanFirst matchDiameterB

/-- First alternative of the hole-count pattern, `(\d+)\s*[- ]?bolt`, at the
current position.  `\s*` is greedy and `[- ]` overlaps `\s` only on the
space character, so after consuming all whitespace an optional single `-`
or space before the literal `bolt` reproduces the backtracking result. -/
def matchBoltAt (l : List Char) : Option Nat :=
  let ds := l.takeWhile Char.isDigit
  if ds.isEmpty then none
  else
    let r := skipSpaces (l.dropWhile Char.isDigit)
    if startsWith kwBolt r then some (natOfDigits ds)
    else
      match r with
      | c :: rest =>
        if (c == '-' || c == ' ') && startsWith kwBolt rest then some (natOfDigits ds)
        else none
      | [] => none

/-- Second alternative, `\b(\d+)\s*holes?\b`, at the current position;
`prevWord` tells whether the previous character was a word character (the
`\b` before the digits). -/
def matchHolesAt (prevWord : Bool) (l : List Char) : Option Nat :=
  if prevWord then none
  else
    let ds := l.takeWhile Char.isDigit
    if ds.isEmpty then none
    else
      let r := skipSpaces (l.dropWhile Char.isDigit)
      if startsWith kwHole r then
        match r.drop 4 with
        | [] => some (natOfDigits ds)
        | 's' :: rest =>
          match rest with
          | [] => some (natOfDigits ds)
          | d :: _ => if isWordChar d then none else some (natOfDigits ds)
        | c :: _ => if isWordChar c then none else some (natOfDigits ds)
      else none

/-- `re.search(r'(\d+)\s*[- ]?bolt|\b(\d+)\s*holes?\b', p)`: leftmost match,
first alternative preferred at equal positions; returns the digit group of
whichever alternative matched. -/
def scanHoleCount : Bool → List Char → Option Nat
  | _, [] => none
  | prev, c :: cs =>
    match matchBoltAt (c :: cs) with
    | some n => some n
    | none =>
      match matchHolesAt prev (c :: cs) with
      | some n => some n
      | none => scanHoleCount (isWordChar c) cs

/-- `(\d+)-bolt` at the current position (V's dead fallback pattern). -/
def matchDashBolt (l : List Char) : Option Nat :=
  let ds := l.takeWhile Char.isDigit
  if ds.isEmpty then none
  else
    match l.dropWhile Char.isDigit with
    | '-' :: rest => if startsWith kwBolt rest then some (natOfDigits ds) else none
    | _ => none

/-- `re.search(r'(\d+)-bolt', p)`. -/
def searchDashBolt : List Char → Option Nat := scanFirst matchDashBolt

/-- `(\d+)\s*mm\s*(?:hole|diameter|dia)` at the current position. -/
def matchHoleDia (l : List Char) : Option Nat :=
  let ds := l.takeWhile Char.isDigit
  if ds.isEmpty then none
  else
    let r := skipSpaces (l.dropWhile Char.isDigit)
    if startsWith kwMm r then
      let r2 := skipSpaces (r.drop 2)
      if startsWith kwHole r2 || startsWith kwDiameter r2 || startsWith kwDia r2 then
        some (natOfDigits ds)
      else none
    else none

/-- `re.search(r'(\d+)\s*mm\s*(?:hole|diameter|dia)', p)`. -/
def searchHoleDia : List Char → Option Nat := scanFirst matchHoleDia

/-- `supports\s*(?:up to\s*)?(\d+)\s*n` at the current position.  When the
optional `up to` is present but the rest fails, retrying without it would
need a digit at `u`, so it fails anyway: the deterministic reading below is
exact. -/
def matchSupports (l : List Char) : Option Nat :=
  if startsWith kwSupports l then
    let r := skipSpaces (l.drop 8)
    let r2 := if startsWith kwUpTo r then skipSpaces (r.drop 5) else r
    let ds := r2.takeWhile Char.isDigit
    if ds.isEmpty then none
    else
      match skipSpaces (r2.dropWhile Char.isDigit) with
      | c :: _ => if c == 'n' then some (natOfDigits ds) else none
      | [] => none
  else none

/-- `re.search(r'supports\s*(?:up to\s*)?(\d+)\s*n', p)`. -/
def searchSupports : List Char → Option Nat := scanFirst matchSupports

/-- `re.findall(r'(\d+)\s*mm', p)` (V): non-overlapping left-to-right
matches; a failed attempt at a digit run fails at every inner position of
the run as well, so the scan may resume after the run.  The fuel is the
input length; every recursive call consumes at least one character. -/
def findAllNumMmF : Nat → List Char → List Nat
  | 0, _ => []
  | _, [] => []
  | fuel + 1, c :: cs =>
    if c.isDigit then
      let ds := (c :: cs).takeWhile Char.isDigit
      let rest := (c :: cs).dropWhile Char.isDigit
      let r := skipSpaces rest
      if startsWith kwMm r then natOfDigits ds :: findAllNumMmF fuel (r.drop 2)
      else findAllNumMmF fuel rest
    else findAllNumMmF fuel cs

/-- All `(\d+)\s*mm` groups of the prompt, in order (V). -/
def findAllNumMm (l : List Char) : List Nat := findAllNumMmF l.length l

/-- `re.findall(r'(\d+)\s*m*m', p)` (B): a number followed by whitespace and
one or more `m`s (the greedy `m*m` consumes the whole `m` run). -/
def findAllNumMF : Nat → List Char → List Nat
  | 0, _ => []
  | _, [] => []
  | fuel + 1, c :: cs =>
    if c.isDigit then
      let ds := (c :: cs).takeWhile Char.isDigit
      let rest := (c :: cs).dropWhile Char.isDigit
      let r := skipSpaces rest
      let ms := r.takeWhile (fun d => d == 'm')
      if ms.isEmpty then findAllNumMF fuel rest
      else natOfDigits ds :: findAllNumMF fuel (r.dropWhile (fun d => d == 'm'))
    else findAllNumMF fuel cs

/-- B's `dims` list: all `(\d+)\s*m*m` groups of the prompt, in order. -/
def dimsB (l : List Char) : List Nat := findAllNumMF l.length l

/-- The part archetypes the scripts can produce or dispatch on. -/
inductive PartType where
  | arm
  | trapezoid
  | rectangle
  | circle
  | l_bracket
  deriving DecidableEq, Repr

/-- The two materials of the scripts. -/
inductive Material where
  | aluminum
  | steel
  deriving DecidableEq, Repr

/-- The parameter dictionary produced by `parse_prompt`.  Keys the parsers
always set are plain fields; keys that exist only for some part types are
`Option` (a `none` read through `params[...]` is a `KeyError`). -/
structure PartSpec where
  part_type : PartType
  length : Nat
  width : Nat
  thickness : Nat
  hole_count : Nat
  hole_diameter : Nat
  material : Material
  target_force_n : Nat
  width_left : Option Nat := none
  width_right : Option Nat := none
  rect_width : Option Nat := none
  rect_height : Option Nat := none
  circle_diameter : Option Nat := none
  deriving DecidableEq, Repr

/-- V's archetype condition for `arm`: `re.search(r'\barm\b', p)`. -/
def typeArmV (q : List Char) : Bool := hasWord kwArm q

/-- V's archetype condition for `l_bracket`:
`re.search(r'\bl-?bracket\b|\bl bracket\b', p)`. -/
def typeLbrV (q : List Char) : Bool :=
  hasWord kwLbr1 q || hasWord kwLbr2 q || hasWord kwLbr3 q

/-- V's archetype condition for `circle`: `re.search(r'\bplate\b', p)`. -/
def typePlateV (q : List Char) : Bool := hasWord kwPlate q

/-- V's archetype condition for `rectangle`:
`re.search(r'\brectangl|bar\b', p)` — note the asymmetric boundaries:
`rectangl` is only left-anchored and `bar` only right-anchored. -/
def typeRectV (q : List Char) : Bool :=
  hasWordStart kwRectangl q || hasWordEnd kwBar q

/-- V's archetype condition for `trapezoid`:
`re.search(r'\btrapezoid\b|\bbracket\b', p)`. -/
def typeTrapV (q : List Char) : Bool :=
  hasWord kwTrapezoid q || hasWord kwBracket q

/-- V's part-type cascade (vectorflow.py lines 17–28, a.py lines 39–50). -/
def partTypeV (q : List Char) : PartType :=
  if typeArmV q then .arm
  else if typeLbrV q then .l_bracket
  else if typePlateV q then .circle
  else if typeRectV q then .rectangle
  else if typeTrapV q then .trapezoid
  else .trapezoid

/-- B's archetype condition for `arm`: the plain substring test `'arm' in p`. -/
def typeArmB (q : List Char) : Bool := containsSub kwArm q

/-- B's archetype condition for `l_bracket`:
`'l-bracket' in p or 'l bracket' in p`. -/
def typeLbrB (q : List Char) : Bool := containsSub kwLbr1 q || containsSub kwLbr3 q

/-- B's archetype condition for `circle`: `'plate' in p`. -/
def typePlateB (q : List Char) : Bool := containsSub kwPlate q

/-- B's archetype condition for `rectangle`: `'rectangle' in p or 'bar' in p`. -/
def typeRectB (q : List Char) : Bool :=
  containsSub kwRectangle q || containsSub kwBar q

/-- B's archetype condition for `trapezoid`: `'trapezoid' in p or 'bracket' in p`. -/
def typeTrapB (q : List Char) : Bool :=
  containsSub kwTrapezoid q || containsSub kwBracket q

/-- B's part-type cascade (b.py lines 39–43). -/
def partTypeB (q : List Char) : PartType :=
  if typeArmB q then .arm
  else if typeLbrB q then .l_bracket
  else if typePlateB q then .circle
  else if typeRectB q then .rectangle
  else if typeTrapB q then .trapezoid
  else .trapezoid

/-- V's `length` field (vectorflow.py lines 29–34). -/
def lengthV (q : List Char) : Nat :=
  match searchNumMm q with
  | some n => n
  | none =>
    match searchNumLong q with
    | some n => n
    | none => 120

/-- V's `width` field (vectorflow.py lines 35–43): the explicit `width …mm`
pattern, else the second `…mm` occurrence, else 40. -/
def widthV (q : List Char) : Nat :=
  match searchWidthV q with
  | some n => n
  | none =>
    match findAllNumMm q with
    | _ :: b :: _ => b
    | _ => 40

/-- V's `thickness` field (vectorflow.py lines 44–48). -/
def thicknessV (q : List Char) : Nat :=
  match searchThicknessV q with
  | some n => n
  | none => 5

/-- V's `hole_count` field (vectorflow.py lines 49–55); the `(\d+)-bolt`
fallback is kept even though the main pattern subsumes it. -/
def holeCountV (q : List Char) : Nat :=
  match scanHoleCount false q with
  | some n => n
  | none =>
    match searchDashBolt q with
    | some k => k
    | none => 3

/-- `hole_diameter`, identical in both variants (default 6). -/
def holeDiaOf (q : List Char) : Nat :=
  match searchHoleDia q with
  | some n => n
  | none => 6

/-- `material`, identical in both variants (default aluminum). -/
def materialOf (q : List Char) : Material :=
  if containsSub kwSteel q then .steel
  else if containsSub kwAluminium q || containsSub kwAluminum q then .aluminum
  else .aluminum

/-- `target_force_n`, identical in both variants (default 2000). -/
def targetForceOf (q : List Char) : Nat :=
  match searchSupports q with
  | some n => n
  | none => 2000

/-- B's `length` field: `dims[0]` when present else the initial default 120. -/
def lengthB (q : List Char) : Nat :=
  match dimsB q with
  | d :: _ => d
  | [] => 120

/-- B's `width` field: overridden by the `width` keyword pattern, else
`dims[1]` when present, else the initial default 40. -/
def widthB (q : List Char) : Nat :=
  match searchWidthB q with
  | some n => n
  | none =>
    match dimsB q with
    | _ :: b :: _ => b
    | _ => 40

/-- B's `thickness` field (default 5). -/
def thicknessB (q : List Char) : Nat :=
  match searchThicknessB q with
  | some n => n
  | none => 5

/-- B's `hole_count` field: the shared bolt/holes pattern, else the initial
default 3 (B has no dead fallback search). -/
def holeCountB (q : List Char) : Nat :=
  match scanHoleCount false q with
  | some n => n
  | none => 3

/-- B's pre-normalization `circle_diameter` key, set only when
`diameter\s*(\d+)` matches (b.py line 53). -/
def diameterKwB (q : List Char) : Option Nat := searchDiameterB q

/-- V's raw extraction: the dictionary before shape-specific normalization
(vectorflow.py lines 14–65). -/
def rawV (q : List Char) : PartSpec :=
  { part_type := partTypeV q
    length := lengthV q
    width := widthV q
    thickness := thicknessV q
    hole_count := holeCountV q
    hole_diameter := holeDiaOf q
    material := materialOf q
    target_force_n := targetForceOf q }

/-- V's shape-specific normalization (vectorflow.py lines 66–74); the final
`int` re-coercion loop is a no-op since every value is already an integer,
and the `setdefault` calls in `run_from_prompt` never fire after this. -/
def normalizeV (s : PartSpec) : PartSpec :=
  match s.part_type with
  | .arm | .trapezoid =>
    { s with width_left := some s.width, width_right := some (max 10 (s.width / 2)) }
  | .rectangle => { s with rect_width := some s.width, rect_height := some s.thickness }
  | .circle => { s with circle_diameter := some s.length }
  | .l_bracket => s

/-- `parse_prompt` of vectorflow.py / a.py. -/
def parseV (p : List Char) : PartSpec := normalizeV (rawV (toLowerL p))

/-- B's raw extraction (b.py lines 25–66), including the keyword-set
`circle_diameter`. -/
def rawB (q : List Char) : PartSpec :=
  { part_type := partTypeB q
    length := lengthB q
    width := widthB q
    thickness := thicknessB q
    hole_count := holeCountB q
    hole_diameter := holeDiaOf q
    material := materialOf q
    target_force_n := targetForceOf q
    circle_diameter := diameterKwB q }

/-- B's shape-specific normalization (b.py lines 69–75); for `circle` the
`length` overwrites any keyword-derived diameter. -/
def normalizeB (s : PartSpec) : PartSpec :=
  match s.part_type with
  | .arm | .trapezoid =>
    { s with width_left := some s.width, width_right := some (max 10 (s.width / 2)) }
  | .rectangle => { s with rect_width := some s.width }
  | .circle => { s with circle_diameter := some s.length }
  | .l_bracket => s

/-- `parse_prompt` of b.py. -/
def parseB (p : List Char) : PartSpec := normalizeB (rawB (toLowerL p))

/-- An (x, y) hole centre.  Positions on the circle's bolt ring are kept
symbolic: `ring r i n` stands for
`(r * cos(2*pi*i/n), r * sin(2*pi*i/n))`, the expression both scripts
write; two `ring` values with equal fields denote equal coordinates. -/
inductive HolePos where
  | cart (x y : ℚ)
  | ring (r : ℚ) (i n : Nat)
  deriving DecidableEq, Repr

/-- One through-cut of the solid model:
`translate([x, y, zoff])(cylinder(r, depth))`. -/
structure HoleCut where
  pos : HolePos
  r : ℚ
  depth : ℚ
  zoff : ℚ
  deriving DecidableEq, Repr

/-- The extruded base solid of `build_scad`. -/
inductive SolidBase where
  | poly (pts : List (ℚ × ℚ)) (height : ℚ)
  | circ (r : ℚ) (segments : Nat) (height : ℚ)
  | lshape (leg1 : ℚ × ℚ × ℚ) (off : ℚ × ℚ × ℚ) (leg2 : ℚ × ℚ × ℚ)
  deriving DecidableEq, Repr

/-- The value returned by `build_scad`: the base solid minus the listed
through-cuts (no cuts means the base alone).  `lshape l1 o l2` denotes
`union(cube(l1), translate(o)(cube(l2)))`. -/
structure ScadPart where
  base : SolidBase
  holes : List HoleCut
  deriving DecidableEq, Repr

/-- Hole centres drawn by V's `generate_2d_preview` (vectorflow.py lines
80–113): reading a missing shape field is a `KeyError`, hence `none`.  The
`l_bracket` branch draws nothing and succeeds. -/
def previewHolesV (s : PartSpec) : Option (List HolePos) :=
  match s.part_type with
  | .arm | .trapezoid =>
    match s.width_left, s.width_right with
    | some wl, some wr =>
      some ((List.range s.hole_count).map fun i =>
        HolePos.cart (((i : ℚ) + 1) * (s.length : ℚ) / ((s.hole_count : ℚ) + 1))
          (((wl : ℚ) + (wr : ℚ)) / 4))
    | _, _ => none
  | .rectangle =>
    match s.rect_width with
    | some w =>
      some ((List.range s.hole_count).map fun i =>
        HolePos.cart (((i : ℚ) + 1) * (s.length : ℚ) / ((s.hole_count : ℚ) + 1))
          ((w : ℚ) / 2))
    | none => none
  | .circle =>
    match s.circle_diameter with
    | some d =>
      if 0 < s.hole_count then
        some ((List.range s.hole_count).map fun i =>
          HolePos.ring ((d : ℚ) / 2 * (1 / 2)) i s.hole_count)
      else some []
    | none => none
  | .l_bracket => some []

/-- `build_scad` of vectorflow.py / a.py (lines 115–157): raises
`ValueError` for `l_bracket`, otherwise extrudes the outline and subtracts
the hole cylinders (guarded by `hole_count > 0`). -/
def buildScadV (s : PartSpec) : Except String ScadPart :=
  let th : ℚ := (s.thickness : ℚ)
  match s.part_type with
  | .arm | .trapezoid =>
    match s.width_left, s.width_right with
    | some wl, some wr =>
      let L : ℚ := (s.length : ℚ)
      let base := SolidBase.poly [(0, 0), (L, 0), (L, (wr : ℚ)), (0, (wl : ℚ))] th
      let holes :=
        if 0 < s.hole_count then
          (List.range s.hole_count).map fun i =>
            { pos := HolePos.cart (((i : ℚ) + 1) * L / ((s.hole_count : ℚ) + 1))
                (((wl : ℚ) + (wr : ℚ)) / 4)
              r := (s.hole_diameter : ℚ) / 2
              depth := th + 2
              zoff := -1 : HoleCut }
        else []
      .ok { base := base, holes := holes }
    | _, _ => .error (r"KeyError")
  | .rectangle =>
    match s.rect_width with
    | some w =>
      let L : ℚ := (s.length : ℚ)
      let base := SolidBase.poly [(0, 0), (L, 0), (L, (w : ℚ)), (0, (w : ℚ))] th
      let holes :=
        if 0 < s.hole_count then
          (List.range s.hole_count).map fun i =>
            { pos := HolePos.cart (((i : ℚ) + 1) * L / ((s.hole_count : ℚ) + 1))
                ((w : ℚ) / 2)
              r := (s.hole_diameter : ℚ) / 2
              depth := th + 2
              zoff := -1 : HoleCut }
        else []
      .ok { base := base, holes := holes }
    | none => .error (r"KeyError")
  | .circle =>
    match s.circle_diameter with
    | some d =>
      let base := SolidBase.circ ((d : ℚ) / 2) 128 th
      let holes :=
        if 0 < s.hole_count then
          (List.range s.hole_count).map fun i =>
            { pos := HolePos.ring ((d : ℚ) / 2 * (1 / 2)) i s.hole_count
              r := (s.hole_diameter : ℚ) / 2
              depth := th + 2
              zoff := -1 : HoleCut }
        else []
      .ok { base := base, holes := holes }
    | none => .error (r"KeyError")
  | .l_bracket => .error (r"Unknown part type for SCAD")

/-- Hole centres of the solid model V builds. -/
def scadHolesV (s : PartSpec) : Option (List HolePos) :=
  ((buildScadV s).map fun part => part.holes.map HoleCut.pos).toOption

/-- Hole centres drawn by B's `generate_2d_preview` (b.py lines 79–130);
the whole hole block is guarded by `hc > 0`, the trapezoid `y` follows the
taper and the rectangle is re-centred at the origin. -/
def previewHolesB (s : PartSpec) : Option (List HolePos) :=
  match s.part_type with
  | .arm | .trapezoid =>
    match s.width_left, s.width_right with
    | some wl, some wr =>
      some (if 0 < s.hole_count then
        (List.range s.hole_count).map fun i =>
          HolePos.cart (((i : ℚ) + 1) * (s.length : ℚ) / ((s.hole_count : ℚ) + 1))
            ((wl : ℚ) / 2 -
              ((wl : ℚ) - (wr : ℚ)) / 2 * (((i : ℚ) + 1) / ((s.hole_count : ℚ) + 1)))
      else [])
    | _, _ => none
  | .rectangle =>
    match s.rect_width with
    | some _ =>
      some (if 0 < s.hole_count then
        (List.range s.hole_count).map fun i =>
          HolePos.cart
            (((i : ℚ) + 1) * (s.length : ℚ) / ((s.hole_count : ℚ) + 1) - (s.length : ℚ) / 2)
            0
      else [])
    | none => none
  | .circle =>
    match s.circle_diameter with
    | some d =>
      some (if 0 < s.hole_count then
        (List.range s.hole_count).map fun i =>
          HolePos.ring ((d : ℚ) / 2 * (1 / 2)) i s.hole_count
      else [])
    | none => none
  | .l_bracket => some []

/-- `build_scad` of b.py (lines 132–181): it has an `l_bracket` branch
(two cuboids unioned into an L) and its hole-generation block is absent,
so `hole_objs` stays empty and no `difference` is ever produced. -/
def buildScadB (s : PartSpec) : Except String ScadPart :=
  let th : ℚ := (s.thickness : ℚ)
  match s.part_type with
  | .arm | .trapezoid =>
    match s.width_left, s.width_right with
    | some wl, some wr =>
      let L : ℚ := (s.length : ℚ)
      .ok { base := SolidBase.poly [(0, 0), (L, 0), (L, (wr : ℚ)), (0, (wl : ℚ))] th
            holes := [] }
    | _, _ => .error (r"KeyError")
  | .rectangle =>
    match s.rect_width with
    | some w =>
      let L : ℚ := (s.length : ℚ)
      .ok { base := SolidBase.poly [(0, 0), (L, 0), (L, (w : ℚ)), (0, (w : ℚ))] th
            holes := [] }
    | none => .error (r"KeyError")
  | .circle =>
    match s.circle_diameter with
    | some d => .ok { base := SolidBase.circ ((d : ℚ) / 2) 128 th, holes := [] }
    | none => .error (r"KeyError")
  | .l_bracket =>
    .ok { base := SolidBase.lshape ((s.width : ℚ), (s.length : ℚ), th)
            (0, (s.length : ℚ) - th, 0)
            ((s.width : ℚ), th, (s.length : ℚ) / 2)
          holes := [] }

/-- Hole centres of the solid model B builds. -/
def scadHolesB (s : PartSpec) : Option (List HolePos) :=
  ((buildScadB s).map fun part => part.holes.map HoleCut.pos).toOption

/-- The PASS/FAIL verdict of a structural report. -/
inductive Status where
  | PASS
  | FAIL
  deriving DecidableEq, Repr

/-- The structural section of the log row both variants build. -/
structure Report where
  net_area_mm2 : ℚ
  volume_cm3 : ℚ
  weight_g : ℚ
  max_force_n : ℚ
  target_force_n : ℚ
  status : Status
  deriving DecidableEq, Repr

/-- Densities in g/cm³ (same table in every variant). -/
def densityOf : Material → ℚ
  | .aluminum => 27 / 10
  | .steel => 157 / 20

/-- Yield strengths in MPa (same table in every variant). -/
def yieldOf : Material → ℚ
  | .aluminum => 150
  | .steel => 250

/-- A concrete rational standing in for the float `math.pi` where a closed
statement needs one (no claim depends on its value). -/
def piApprox : ℚ := 314159265358979 / 100000000000000

/-- V's `net_area_mm2` (vectorflow.py lines 191–196): the final `else`
covers everything that is neither arm/trapezoid nor rectangle, so an
`l_bracket` spec would read the absent `circle_diameter` key. -/
def netAreaV (pi : ℚ) (s : PartSpec) : Option ℚ :=
  match s.part_type with
  | .arm | .trapezoid =>
    match s.width_left, s.width_right with
    | some wl, some wr => some (1 / 2 * ((wl : ℚ) + (wr : ℚ)) * (s.length : ℚ))
    | _, _ => none
  | .rectangle => s.rect_width.map fun w => (s.length : ℚ) * (w : ℚ)
  | _ => s.circle_diameter.map fun d => pi * ((d : ℚ) / 2) ^ 2

/-- B's `net_area_mm2` (b.py lines 212–218): initialized to 0, so an
`l_bracket` spec keeps area 0. -/
def netAreaB (pi : ℚ) (s : PartSpec) : Option ℚ :=
  match s.part_type with
  | .arm | .trapezoid =>
    match s.width_left, s.width_right with
    | some wl, some wr => some (1 / 2 * ((wl : ℚ) + (wr : ℚ)) * (s.length : ℚ))
    | _, _ => none
  | .rectangle => s.rect_width.map fun w => (s.length : ℚ) * (w : ℚ)
  | .circle => s.circle_diameter.map fun d => pi * ((d : ℚ) / 2) ^ 2
  | .l_bracket => some 0

/-- B's `effective_width` (b.py line 227):
`params.get('width_right', params.get('rect_width', params.get('circle_diameter')))`.
When all three keys are absent the Python value is `None` and the following
multiplication raises `TypeError`; that is the `none` case here. -/
def effectiveWidthB (s : PartSpec) : Option Nat :=
  match s.width_right with
  | some w => some w
  | none =>
    match s.rect_width with
    | some w => some w
    | none => s.circle_diameter

/-- V's structural estimation (vectorflow.py lines 191–203):
`max_force = yield_strength * net_area_mm2`. -/
def estimatorV (pi : ℚ) (s : PartSpec) : Option Report :=
  (netAreaV pi s).map fun na =>
    let th : ℚ := (s.thickness : ℚ)
    let vol := na * th / 1000
    let mf := yieldOf s.material * na
    { net_area_mm2 := na
      volume_cm3 := vol
      weight_g := vol * densityOf s.material
      max_force_n := mf
      target_force_n := (s.target_force_n : ℚ)
      status := if (s.target_force_n : ℚ) ≤ mf then .PASS else .FAIL }

/-- B's structural estimation (b.py lines 211–231):
`max_force = (effective_width * thickness) * (yield_strength / 1000)`;
the run crashes (TypeError) when `effective_width` is `None`. -/
def estimatorB (pi : ℚ) (s : PartSpec) : Option Report :=
  match netAreaB pi s, effectiveWidthB s with
  | some na, some ew =>
    let th : ℚ := (s.thickness : ℚ)
    let vol := na * th / 1000
    let mf := (ew : ℚ) * th * (yieldOf s.material / 1000)
    some
      { net_area_mm2 := na
        volume_cm3 := vol
        weight_g := vol * densityOf s.material
        max_force_n := mf
        target_force_n := (s.target_force_n : ℚ)
        status := if (s.target_force_n : ℚ) ≤ mf then .PASS else .FAIL }
  | _, _ => none

/-- Part types V's `build_scad` has a branch for. -/
def recognizedV : PartType → Bool
  | .arm | .trapezoid | .rectangle | .circle => true
  | .l_bracket => false

/-- V's `run_from_prompt` after parsing (vectorflow.py lines 169–225),
restricted to the data the log row records: preview, then solid build,
then estimation, then the `append_csv` call.  An uncaught exception at any
stage aborts the run before `append_csv`, i.e. yields `.error`; `.ok`
means a log row with this report was appended.  The STL export failure is
caught in the source and does not influence the row's presence. -/
def runFromSpecV (pi : ℚ) (s : PartSpec) : Except String Report :=
  match previewHolesV s with
  | none => .error (r"KeyError")
  | some _ =>
    match buildScadV s with
    | .error e => .error e
    | .ok _ =>
      match estimatorV pi s with
      | none => .error (r"KeyError")
      | some rep => .ok rep

/- Concrete inputs used in closed statements. -/

/-- Example prompt 2 of every variant's `__main__` menu. -/
def scenario2Prompt : List Char :=
  String.toList (r"Make a steel plate 80mm diameter with 4 holes 6mm, thickness 6mm")

/-- A prompt containing `arm` only inside the word `harmonic`. -/
def harmonicPrompt : List Char := String.toList (r"design a harmonic damper")

/-- A prompt containing `bar` only inside the word `rebar`. -/
def rebarPrompt : List Char := String.toList (r"attach a rebar rod")

/-- A prompt with no archetype keyword at all. -/
def noKeywordPrompt : List Char := String.toList (r"make a widget 100mm")

/-- A prompt both parsers classify as an arm. -/
def armPrompt : List Char := String.toList (r"design an arm")

/-- A prompt both parsers classify as a trapezoid bracket. -/
def bracketPrompt : List Char := String.toList (r"design a bracket")

/-- An l-bracket prompt with no `diameter <n>` phrase. -/
def lbracketPrompt : List Char := String.toList (r"make an l bracket")

/-- A prompt whose first `mm` number is a thickness, on a circle part. -/
def mmFirstPrompt : List Char := String.toList (r"plate thickness 12mm")

/-- A resolved trapezoid spec used to exercise the estimators. -/
def trapSpec : PartSpec :=
  { part_type := .trapezoid, length := 100, width := 40, thickness := 5
    hole_count := 3, hole_diameter := 6, material := .aluminum
    target_force_n := 2000, width_left := some 40, width_right := some 20 }

/-- The report V's estimator produces for `trapSpec`. -/
def trapRepV : Report :=
  { net_area_mm2 := 3000, volume_cm3 := 15, weight_g := 81 / 2
    max_force_n := 450000, target_force_n := 2000, status := .PASS }

/-- The report B's estimator produces for `trapSpec`. -/
def trapRepB : Report :=
  { net_area_mm2 := 3000, volume_cm3 := 15, weight_g := 81 / 2
    max_force_n := 15, target_force_n := 2000, status := .FAIL }

/-- A resolved arm spec (the scenario-1 arm of the example menu). -/
def armSpec : PartSpec :=
  { part_type := .arm, length := 150, width := 50, thickness := 5
    hole_count := 3, hole_diameter := 6, material := .aluminum
    target_force_n := 2000, width_left := some 50, width_right := some 25 }

/-- An l_bracket spec with the parsers' default numeric fields. -/
def lbSpec : PartSpec :=
  { part_type := .l_bracket, length := 120, width := 40, thickness := 5
    hole_count := 3, hole_diameter := 6, material := .aluminum
    target_force_n := 2000 }

/- Structural lemmas about normalization shared by several claims. -/

theorem normalizeV_part_type (s : PartSpec) : (normalizeV s).part_type = s.part_type := by
  cases h : s.part_type <;> simp [normalizeV, h]

theorem normalizeB_part_type (s : PartSpec) : (normalizeB s).part_type = s.part_type := by
  cases h : s.part_type <;> simp [normalizeB, h]

theorem normalizeV_length (s : PartSpec) : (normalizeV s).length = s.length := by
  cases h : s.part_type <;> simp [normalizeV, h]

theorem normalizeB_length (s : PartSpec) : (normalizeB s).length = s.length := by
  cases h : s.part_type <;> simp [normalizeB, h]

theorem parseV_part_type (p : List Char) :
    (parseV p).part_type = partTypeV (toLowerL p) := by
  rw [parseV, normalizeV_part_type]; rfl

theorem parseB_part_type (p : List Char) :
    (parseB p).part_type = partTypeB (toLowerL p) := by
  rw [parseB, normalizeB_part_type]; rfl

theorem normalizeV_widths (s : PartSpec)
    (h : s.part_type = PartType.arm ∨ s.part_type = PartType.trapezoid) :
    (normalizeV s).width_left = some s.width ∧
      (normalizeV s).width_right = some (max 10 (s.width / 2)) := by
  rcases h with h | h <;> simp [normalizeV, h]

theorem normalizeB_widths (s : PartSpec)
    (h : s.part_type = PartType.arm ∨ s.part_type = PartType.trapezoid) :
    (normalizeB s).width_left = some s.width ∧
      (normalizeB s).width_right = some (max 10 (s.width / 2)) := by
  rcases h with h | h <;> simp [normalizeB, h]

theorem normalizeV_circle (s : PartSpec) (h : s.part_type = PartType.circle) :
    (normalizeV s).circle_diameter = some s.length := by
  simp [normalizeV, h]

theorem normalizeB_circle (s : PartSpec) (h : s.part_type = PartType.circle) :
    (normalizeB s).circle_diameter = some s.length := by
  simp [normalizeB, h]

/-- The estimator of V succeeds on every normalized spec that is not an
l_bracket. -/
theorem estimatorV_total_normalized (pi : ℚ) (s : PartSpec)
    (h : s.part_type ≠ PartType.l_bracket) :
    (estimatorV pi (normalizeV s)).isSome = true := by
  cases hpt : s.part_type with
  | l_bracket => exact absurd hpt h
  | arm => simp [normalizeV, hpt, estimatorV, netAreaV]
  | trapezoid => simp [normalizeV, hpt, estimatorV, netAreaV]
  | rectangle => simp [normalizeV, hpt, estimatorV, netAreaV]
  | circle => simp [normalizeV, hpt, estimatorV, netAreaV]

/-- The estimator of B succeeds on every normalized spec that is not an
l_bracket. -/
theorem estimatorB_total_normalized (pi : ℚ) (s : PartSpec)
    (h : s.part_type ≠ PartType.l_bracket) :
    (estimatorB pi (normalizeB s)).isSome = true := by
  cases hpt : s.part_type with
  | l_bracket => exact absurd hpt h
  | arm => simp [normalizeB, hpt, estimatorB, netAreaB, effectiveWidthB]
  | trapezoid => simp [normalizeB, hpt, estimatorB, netAreaB, effectiveWidthB]
  | rectangle =>
    cases hwr : s.width_right <;>
      simp [normalizeB, hpt, estimatorB, netAreaB, effectiveWidthB, hwr]
  | circle =>
    cases hwr : s.width_right <;> cases hrw : s.rect_width <;>
      simp [normalizeB, hpt, estimatorB, netAreaB, effectiveWidthB, hwr, hrw]

/-- Claim C1: for every structural report either variant generates, the
status is PASS exactly when the computed `max_force_n` reaches
`target_force_n`, and FAIL otherwise. -/
theorem c1_status_pass_iff (pi : ℚ) (sV sB : PartSpec) (rV rB : Report)
    (hV : estimatorV pi sV = some rV) (hB : estimatorB pi sB = some rB) :
    ((rV.status = Status.PASS ↔ rV.target_force_n ≤ rV.max_force_n) ∧
      (rV.status = Status.FAIL ↔ ¬rV.target_force_n ≤ rV.max_force_n)) ∧
    ((rB.status = Status.PASS ↔ rB.target_force_n ≤ rB.max_force_n) ∧
      (rB.status = Status.FAIL ↔ ¬rB.target_force_n ≤ rB.max_force_n)) := by
  constructor
  · rcases Option.map_eq_some'.mp hV with ⟨na, _, hrep⟩
    cases hrep
    by_cases hc : (sV.target_force_n : ℚ) ≤ yieldOf sV.material * na <;> simp [hc]
  · rw [estimatorB] at hB
    cases hna : netAreaB pi sB with
    | none => rw [hna] at hB; cases hB
    | some na =>
      cases hew : effectiveWidthB sB with
      | none => rw [hna, hew] at hB; cases hB
      | some ew =>
        rw [hna, hew] at hB
        simp only [Option.some_inj] at hB
        cases hB
        by_cases hc :
            (sB.target_force_n : ℚ) ≤ (ew : ℚ) * (sB.thickness : ℚ) * (yieldOf sB.material / 1000) <;>
          simp [hc]

/-- Witness for C1 at the concrete trapezoid spec `trapSpec`. -/
theorem c1_status_pass_iff_witness :
    (estimatorV piApprox trapSpec = some trapRepV ∧
      estimatorB piApprox trapSpec = some trapRepB) ∧
    (((trapRepV.status = Status.PASS ↔ trapRepV.target_force_n ≤ trapRepV.max_force_n) ∧
        (trapRepV.status = Status.FAIL ↔ ¬trapRepV.target_force_n ≤ trapRepV.max_force_n)) ∧
      ((trapRepB.status = Status.PASS ↔ trapRepB.target_force_n ≤ trapRepB.max_force_n) ∧
        (trapRepB.status = Status.FAIL ↔ ¬trapRepB.target_force_n ≤ trapRepB.max_force_n))) :=
  ⟨⟨by norm_num [estimatorV, netAreaV, trapSpec, trapRepV, yieldOf, densityOf, Report.mk.injEq],
      by norm_num [estimatorB, netAreaB, effectiveWidthB, trapSpec, trapRepB, yieldOf,
        densityOf, Report.mk.injEq]⟩,
    c1_status_pass_iff piApprox trapSpec trapSpec trapRepV trapRepB
      (by norm_num [estimatorV, netAreaV, trapSpec, trapRepV, yieldOf, densityOf,
        Report.mk.injEq])
      (by norm_num [estimatorB, netAreaB, effectiveWidthB, trapSpec, trapRepB, yieldOf,
        densityOf, Report.mk.injEq])⟩

/-- Claim C3, counterexample: on example prompt 2 both parsers extract
`hole_diameter = 80` (the text `80mm diameter` matches the hole-diameter
pattern first), not 6 as the claim states. -/
theorem c3_hole_diameter_counterexample :
    (parseV scenario2Prompt).hole_diameter = 80 ∧
      (parseB scenario2Prompt).hole_diameter = 80 ∧ (80 : Nat) ≠ 6 := by
  decide

/-- Claim C3 as amended: parsing example prompt 2 yields `part_type =
circle`, `circle_diameter = 80`, `hole_count = 4`, `thickness = 6`,
`material = steel`, and `hole_diameter = 80` (not 6), in both variants. -/
theorem c3_scenario2_parse :
    ((parseV scenario2Prompt).part_type = PartType.circle ∧
      (parseV scenario2Prompt).circle_diameter = some 80 ∧
      (parseV scenario2Prompt).hole_count = 4 ∧
      (parseV scenario2Prompt).hole_diameter = 80 ∧
      (parseV scenario2Prompt).thickness = 6 ∧
      (parseV scenario2Prompt).material = Material.steel) ∧
    ((parseB scenario2Prompt).part_type = PartType.circle ∧
      (parseB scenario2Prompt).circle_diameter = some 80 ∧
      (parseB scenario2Prompt).hole_count = 4 ∧
      (parseB scenario2Prompt).hole_diameter = 80 ∧
      (parseB scenario2Prompt).thickness = 6 ∧
      (parseB scenario2Prompt).material = Material.steel) := by
  decide

/-- Claim C4: in every variant, a resolved trapezoid or arm spec (for which
no explicit width_right exists — the parsers have no such pattern) has
`width_right = max(10, floor(0.5 * width_left))`. -/
theorem c4_width_right_derived (p : List Char) :
    ((parseV p).part_type = PartType.arm ∨ (parseV p).part_type = PartType.trapezoid →
      ∃ wl, (parseV p).width_left = some wl ∧
        (parseV p).width_right = some (max 10 (wl / 2))) ∧
    ((parseB p).part_type = PartType.arm ∨ (parseB p).part_type = PartType.trapezoid →
      ∃ wl, (parseB p).width_left = some wl ∧
        (parseB p).width_right = some (max 10 (wl / 2))) := by
  constructor
  · intro h
    rw [parseV] at h ⊢
    rw [normalizeV_part_type] at h
    exact ⟨(rawV (toLowerL p)).width, normalizeV_widths _ h⟩
  · intro h
    rw [parseB] at h ⊢
    rw [normalizeB_part_type] at h
    exact ⟨(rawB (toLowerL p)).width, normalizeB_widths _ h⟩

/-- Witness for C4 at the concrete prompt `armPrompt`. -/
theorem c4_width_right_derived_witness :
    (∃ wl, (parseV armPrompt).width_left = some wl ∧
      (parseV armPrompt).width_right = some (max 10 (wl / 2))) ∧
    (∃ wl, (parseB armPrompt).width_left = some wl ∧
      (parseB armPrompt).width_right = some (max 10 (wl / 2))) :=
  ⟨(c4_width_right_derived armPrompt).1 (Or.inl (by decide)),
    (c4_width_right_derived armPrompt).2 (Or.inl (by decide))⟩

/-- Claim C8: the two `max_force_n` formulas are not equivalent — on the
scenario-1 arm spec, V computes `yield * net_area = 843750` N while B
computes `(width_right * thickness) * (yield / 1000) = 18.75` N. -/
theorem c8_force_formulas_differ :
    (estimatorV piApprox armSpec).map Report.max_force_n = some 843750 ∧
      (estimatorB piApprox armSpec).map Report.max_force_n = some (75 / 4) ∧
      (843750 : ℚ) ≠ 75 / 4 := by
  refine ⟨by norm_num [estimatorV, netAreaV, armSpec, yieldOf],
    by norm_num [estimatorB, netAreaB, effectiveWidthB, armSpec, yieldOf], by norm_num⟩

/-- Claim C2, counterexample: in b.py the preview and the solid model do
not use the same holes — on the scenario-1 arm spec the preview draws its
three holes while `build_scad` cuts none at all. -/
theorem c2_holes_differ_in_b :
    (previewHolesB armSpec).map List.length = some 3 ∧
      (scadHolesB armSpec).map List.length = some 0 ∧
      previewHolesB armSpec ≠ scadHolesB armSpec := by
  have hp : (previewHolesB armSpec).map List.length = some 3 := by rfl
  have hs : (scadHolesB armSpec).map List.length = some 0 := by rfl
  refine ⟨hp, hs, ?_⟩
  intro h
  rw [h, hs] at hp
  simp at hp

/-- Claim C2 as amended: in vectorflow.py / a.py the preview's hole centres
and the solid model's through-cut centres coincide — same count, same
positions — for every PartSpec whose part type reaches the solid builder;
in b.py they differ (see the counterexample). -/
theorem c2_preview_scad_holes_agree (s : PartSpec)
    (h : s.part_type ≠ PartType.l_bracket) :
    previewHolesV s = scadHolesV s := by
  cases hpt : s.part_type with
  | l_bracket => exact absurd hpt h
  | arm =>
    cases hwl : s.width_left with
    | none => simp [previewHolesV, scadHolesV, buildScadV, hpt, hwl, Except.map, Except.toOption]
    | some wl =>
      cases hwr : s.width_right with
      | none =>
        simp [previewHolesV, scadHolesV, buildScadV, hpt, hwl, hwr, Except.map, Except.toOption]
      | some wr =>
        rcases Nat.eq_zero_or_pos s.hole_count with h0 | h0 <;>
          simp [previewHolesV, scadHolesV, buildScadV, hpt, hwl, hwr, h0, Except.map,
            Except.toOption, List.map_map, Function.comp]
  | trapezoid =>
    cases hwl : s.width_left with
    | none => simp [previewHolesV, scadHolesV, buildScadV, hpt, hwl, Except.map, Except.toOption]
    | some wl =>
      cases hwr : s.width_right with
      | none =>
        simp [previewHolesV, scadHolesV, buildScadV, hpt, hwl, hwr, Except.map, Except.toOption]
      | some wr =>
        rcases Nat.eq_zero_or_pos s.hole_count with h0 | h0 <;>
          simp [previewHolesV, scadHolesV, buildScadV, hpt, hwl, hwr, h0, Except.map,
            Except.toOption, List.map_map, Function.comp]
  | rectangle =>
    cases hrw : s.rect_width with
    | none => simp [previewHolesV, scadHolesV, buildScadV, hpt, hrw, Except.map, Except.toOption]
    | some w =>
      rcases Nat.eq_zero_or_pos s.hole_count with h0 | h0 <;>
        simp [previewHolesV, scadHolesV, buildScadV, hpt, hrw, h0, Except.map,
          Except.toOption, List.map_map, Function.comp]
  | circle =>
    cases hcd : s.circle_diameter with
    | none => simp [previewHolesV, scadHolesV, buildScadV, hpt, hcd, Except.map, Except.toOption]
    | some d =>
      rcases Nat.eq_zero_or_pos s.hole_count with h0 | h0 <;>
        simp [previewHolesV, scadHolesV, buildScadV, hpt, hcd, h0, Except.map,
          Except.toOption, List.map_map, Function.comp]

/-- Witness for the amended C2 at the concrete arm spec. -/
theorem c2_preview_scad_holes_agree_witness :
    armSpec.part_type ≠ PartType.l_bracket ∧ previewHolesV armSpec = scadHolesV armSpec :=
  ⟨by decide, c2_preview_scad_holes_agree armSpec (by decide)⟩

/-- Claim C5: a PartSpec whose part type the V solid builder does not
recognize makes `build_scad` raise, the run abort, and — since
`append_csv` is only reached on a normal return (`.ok`) — no log row is
written.  (The 2D preview stage silently draws nothing for such a spec,
so the abort happens exactly at solid construction.) -/
theorem c5_unrecognized_aborts (pi : ℚ) (s : PartSpec)
    (h : recognizedV s.part_type = false) :
    runFromSpecV pi s = Except.error (r"Unknown part type for SCAD") := by
  cases hpt : s.part_type with
  | l_bracket => simp [runFromSpecV, previewHolesV, buildScadV, hpt]
  | arm => rw [hpt] at h; cases h
  | trapezoid => rw [hpt] at h; cases h
  | rectangle => rw [hpt] at h; cases h
  | circle => rw [hpt] at h; cases h

/-- Witness for C5 at the concrete l_bracket spec. -/
theorem c5_unrecognized_aborts_witness :
    recognizedV lbSpec.part_type = false ∧
      runFromSpecV piApprox lbSpec = Except.error (r"Unknown part type for SCAD") :=
  ⟨by decide, c5_unrecognized_aborts piApprox lbSpec (by decide)⟩

/-- Claim C6, counterexample: keyword matching is not word-boundary-only.
In b.py the substring `arm` inside `harmonic` turns the part into an arm,
and even in vectorflow.py the pattern `bar\b` has no left boundary, so
`rebar` turns the part into a rectangle; both prompts contain no archetype
keyword as a whole word. -/
theorem c6_substring_match_counterexample :
    ((hasWord kwArm (toLowerL harmonicPrompt) = false ∧
        hasWord kwPlate (toLowerL harmonicPrompt) = false ∧
        hasWord kwBar (toLowerL harmonicPrompt) = false ∧
        hasWord kwRectangle (toLowerL harmonicPrompt) = false ∧
        hasWord kwTrapezoid (toLowerL harmonicPrompt) = false ∧
        hasWord kwBracket (toLowerL harmonicPrompt) = false) ∧
      (parseB harmonicPrompt).part_type = PartType.arm ∧
      PartType.arm ≠ PartType.trapezoid) ∧
    ((hasWord kwArm (toLowerL rebarPrompt) = false ∧
        hasWord kwBar (toLowerL rebarPrompt) = false ∧
        hasWord kwRectangle (toLowerL rebarPrompt) = false) ∧
      (parseV rebarPrompt).part_type = PartType.rectangle ∧
      PartType.rectangle ≠ PartType.trapezoid) := by
  decide

/-- Claim C6 as amended: any prompt matching none of the archetype
patterns of a variant resolves to `trapezoid` in that variant; but the
matching is not purely word-boundary matching — b.py matches bare
substrings and V's `bar` pattern checks only a right boundary (see the
counterexample). -/
theorem c6_no_keyword_defaults_trapezoid (p : List Char)
    (hV1 : typeArmV (toLowerL p) = false) (hV2 : typeLbrV (toLowerL p) = false)
    (hV3 : typePlateV (toLowerL p) = false) (hV4 : typeRectV (toLowerL p) = false)
    (hB1 : typeArmB (toLowerL p) = false) (hB2 : typeLbrB (toLowerL p) = false)
    (hB3 : typePlateB (toLowerL p) = false) (hB4 : typeRectB (toLowerL p) = false) :
    (parseV p).part_type = PartType.trapezoid ∧
      (parseB p).part_type = PartType.trapezoid := by
  constructor
  · rw [parseV_part_type, partTypeV, hV1, hV2, hV3, hV4]
    by_cases h5 : typeTrapV (toLowerL p) <;> simp [h5]
  · rw [parseB_part_type, partTypeB, hB1, hB2, hB3, hB4]
    by_cases h5 : typeTrapB (toLowerL p) <;> simp [h5]

/-- Witness for the amended C6 at the keyword-free prompt. -/
theorem c6_no_keyword_defaults_trapezoid_witness :
    (typeArmV (toLowerL noKeywordPrompt) = false ∧
      typeLbrV (toLowerL noKeywordPrompt) = false ∧
      typePlateV (toLowerL noKeywordPrompt) = false ∧
      typeRectV (toLowerL noKeywordPrompt) = false ∧
      typeArmB (toLowerL noKeywordPrompt) = false ∧
      typeLbrB (toLowerL noKeywordPrompt) = false ∧
      typePlateB (toLowerL noKeywordPrompt) = false ∧
      typeRectB (toLowerL noKeywordPrompt) = false) ∧
    ((parseV noKeywordPrompt).part_type = PartType.trapezoid ∧
      (parseB noKeywordPrompt).part_type = PartType.trapezoid) :=
  ⟨by decide,
    c6_no_keyword_defaults_trapezoid noKeywordPrompt (by decide) (by decide) (by decide)
      (by decide) (by decide) (by decide) (by decide) (by decide)⟩

/-- Claim C7, counterexample: the structural estimation stage is not
total — in b.py an l_bracket spec parsed from a prompt with no
`diameter <n>` phrase reaches the estimator and crashes (the chained
`.get` makes `effective_width` `None`, and `None * thickness` raises). -/
theorem c7_estimator_fails_on_lbracket :
    (parseB lbracketPrompt).part_type = PartType.l_bracket ∧
      estimatorB piApprox (parseB lbracketPrompt) = none := by
  decide

/-- Claim C7 as amended: for every parsed spec whose part type is not
l_bracket, the estimation stage completes in both variants (all fields it
reads are present); l_bracket specs make it fail in b.py, and in
vectorflow.py would as well, though there the solid builder aborts first. -/
theorem c7_estimator_total_amended (pi : ℚ) (p : List Char)
    (hB : (parseB p).part_type ≠ PartType.l_bracket)
    (hV : (parseV p).part_type ≠ PartType.l_bracket) :
    (estimatorB pi (parseB p)).isSome = true ∧
      (estimatorV pi (parseV p)).isSome = true := by
  constructor
  · rw [parseB] at hB ⊢
    rw [normalizeB_part_type] at hB
    exact estimatorB_total_normalized pi _ hB
  · rw [parseV] at hV ⊢
    rw [normalizeV_part_type] at hV
    exact estimatorV_total_normalized pi _ hV

/-- Witness for the amended C7 at the bracket prompt. -/
theorem c7_estimator_total_amended_witness :
    ((parseB bracketPrompt).part_type ≠ PartType.l_bracket ∧
      (parseV bracketPrompt).part_type ≠ PartType.l_bracket) ∧
    ((estimatorB piApprox (parseB bracketPrompt)).isSome = true ∧
      (estimatorV piApprox (parseV bracketPrompt)).isSome = true) :=
  ⟨⟨by decide, by decide⟩,
    c7_estimator_total_amended piApprox bracketPrompt (by decide) (by decide)⟩

/-- Claim C9: b.py's solid builder handles every l_bracket spec instead of
failing, producing the union of a vertical `width × length × thickness`
leg and a horizontal `width × thickness × (length/2)` leg translated to
the far end of the vertical leg — and, since b.py generates no hole
objects, with zero through-cuts. -/
theorem c9_lbracket_union (s : PartSpec) (h : s.part_type = PartType.l_bracket) :
    buildScadB s =
      Except.ok
        { base := SolidBase.lshape ((s.width : ℚ), (s.length : ℚ), (s.thickness : ℚ))
            (0, (s.length : ℚ) - (s.thickness : ℚ), 0)
            ((s.width : ℚ), (s.thickness : ℚ), (s.length : ℚ) / 2)
          holes := [] } := by
  simp [buildScadB, h]

/-- Witness for C9 at the concrete l_bracket spec. -/
theorem c9_lbracket_union_witness :
    lbSpec.part_type = PartType.l_bracket ∧
      buildScadB lbSpec =
        Except.ok
          { base := SolidBase.lshape ((lbSpec.width : ℚ), (lbSpec.length : ℚ),
                (lbSpec.thickness : ℚ))
              (0, (lbSpec.length : ℚ) - (lbSpec.thickness : ℚ), 0)
              ((lbSpec.width : ℚ), (lbSpec.thickness : ℚ), (lbSpec.length : ℚ) / 2)
            holes := [] } :=
  ⟨by decide, c9_lbracket_union lbSpec (by decide)⟩

/-- Claim C10: length extraction takes the first unit-suffixed number of
the prompt regardless of the surrounding keyword — whenever V's
`(\d+)\s*mm` search (resp. B's `dims` list) produces a first value, that
value becomes `length`, and for a circle part it also becomes the circle
diameter. -/
theorem c10_first_mm_sets_length :
    (∀ p n, searchNumMm (toLowerL p) = some n →
      (parseV p).length = n ∧
        ((parseV p).part_type = PartType.circle →
          (parseV p).circle_diameter = some n)) ∧
    (∀ p n l, dimsB (toLowerL p) = n :: l →
      (parseB p).length = n ∧
        ((parseB p).part_type = PartType.circle →
          (parseB p).circle_diameter = some n)) := by
  constructor
  · intro p n h
    have hlen : (parseV p).length = n := by
      rw [parseV, normalizeV_length]
      show lengthV (toLowerL p) = n
      simp only [lengthV, h]
    refine ⟨hlen, fun hc => ?_⟩
    have hpt : (rawV (toLowerL p)).part_type = PartType.circle := by
      rw [parseV_part_type] at hc; exact hc
    rw [parseV, normalizeV_circle _ hpt]
    show some (lengthV (toLowerL p)) = some n
    simp only [lengthV, h]
  · intro p n l h
    have hlen : (parseB p).length = n := by
      rw [parseB, normalizeB_length]
      show lengthB (toLowerL p) = n
      simp only [lengthB, h]
    refine ⟨hlen, fun hc => ?_⟩
    have hpt : (rawB (toLowerL p)).part_type = PartType.circle := by
      rw [parseB_part_type] at hc; exact hc
    rw [parseB, normalizeB_circle _ hpt]
    show some (lengthB (toLowerL p)) = some n
    simp only [lengthB, h]

/-- Witness for C10 at a prompt whose first mm-number is a thickness on a
circle (plate) part. -/
theorem c10_first_mm_sets_length_witness :
    (searchNumMm (toLowerL mmFirstPrompt) = some 12 ∧
      (parseV mmFirstPrompt).length = 12 ∧
      (parseV mmFirstPrompt).circle_diameter = some 12) ∧
    (dimsB (toLowerL mmFirstPrompt) = [12] ∧
      (parseB mmFirstPrompt).length = 12 ∧
      (parseB mmFirstPrompt).circle_diameter = some 12) :=
  ⟨⟨by decide,
      (c10_first_mm_sets_length.1 mmFirstPrompt 12 (by decide)).1,
      (c10_first_mm_sets_length.1 mmFirstPrompt 12 (by decide)).2 (by decide)⟩,
    ⟨by decide,
      (c10_first_mm_sets_length.2 mmFirstPrompt 12 [] (by decide)).1,
      (c10_first_mm_sets_length.2 mmFirstPrompt 12 [] (by decide)).2 (by decide)⟩⟩
